import Mathlib

/-!
Verification of `cosine_sim_analysis` (notebook `rd1.ipynb`).

The notebook compares two small PyTorch sequence-classification models
(`BaseEmbeddingModel` and `CrossAttentionModel`) on synthetic data built by
`run_comparison`, and prints metrics with `print_results`.

The embedding has three layers:
* a shape calculus for the tensor operations used by the two models, so claims
  about output shapes (logit vectors, similarity scores) can be settled;
* an exact model of the synthetic data generator inside `run_comparison`,
  parameterised by the random draws it consumes;
* a model of the harness glue (train/test split, training schedule,
  `print_results`).
-/

namespace CosineSim

/-! ## Shape calculus for the tensor operations

A tensor is represented by its shape, a list of dimension sizes.  Each
operation below maps input shapes to the output shape computed by the
corresponding PyTorch call, returning `none` when the call would raise a
shape error. -/

abbrev Shape := List Nat

/-- Shape of `nn.Embedding(vocab_size, embedding_dim)` applied to an integer
tensor: a trailing dimension of size `embedding_dim` is appended. -/
def embeddingShape (embeddingDim : Nat) (s : Shape) : Shape :=
  s ++ [embeddingDim]

/-- Shape of `nn.Dropout(p)`: unchanged. -/
def dropoutShape (s : Shape) : Shape := s

/-- Shape of `torch.mean(x, dim=d)`: dimension `d` is removed. -/
def meanDimShape (d : Nat) (s : Shape) : Option Shape :=
  if d < s.length then some (s.take d ++ s.drop (d + 1)) else none

/-- Shape of `nn.Linear(inFeatures, outFeatures)`: the last dimension must be
`inFeatures` and becomes `outFeatures`. -/
def linearShape (inFeatures outFeatures : Nat) (s : Shape) : Option Shape :=
  match s.getLast? with
  | some f => if f = inFeatures then some (s.dropLast ++ [outFeatures]) else none
  | none => none

/-- Shape of `F.relu`: unchanged. -/
def reluShape (s : Shape) : Shape := s

/-- Shape of `F.cosine_similarity(a, b)` with the default `dim=1`: the two
inputs have the same shape and dimension 1 is removed. -/
def cosineSimilarityShape (s1 s2 : Shape) : Option Shape :=
  if s1 = s2 ∧ 1 < s1.length then some (s1.take 1 ++ s1.drop 2) else none

/-- Shape of `nn.MultiheadAttention(embedding_dim, num_heads=4,
batch_first=True)` applied as `attention(q, k, v)` (the attention output, the
first component of the returned pair): inputs are `(B, L, E)` batched tensors
with matching batch and embedding dimensions, and the output takes the query
length: `(B, Lq, E)`. -/
def mhaShape (embeddingDim : Nat) (q k v : Shape) : Option Shape :=
  match q, k, v with
  | [b, lq, e], [b2, lk, e2], [b3, lv, e3] =>
    if e = embeddingDim ∧ e2 = embeddingDim ∧ e3 = embeddingDim ∧
        b2 = b ∧ b3 = b ∧ lk = lv then
      some [b, lq, embeddingDim]
    else none
  | _, _, _ => none

/-- Shape of `nn.LayerNorm(embedding_dim)`: the last dimension must equal
`embedding_dim`; shape unchanged. -/
def layerNormShape (embeddingDim : Nat) (s : Shape) : Option Shape :=
  if s.getLast? = some embeddingDim then some s else none

/-- Shape of elementwise `+` (residual connection) on same-shape tensors. -/
def addShape (s1 s2 : Shape) : Option Shape :=
  if s1 = s2 then some s1 else none

/-- Shape of elementwise `*` on same-shape tensors. -/
def mulShape (s1 s2 : Shape) : Option Shape :=
  if s1 = s2 then some s1 else none

/-- Shape of `torch.sum(x, dim=-1)`: the last dimension is removed. -/
def sumLastDimShape (s : Shape) : Option Shape :=
  if s.length ≥ 1 then some s.dropLast else none

/-- Shape of division by a scalar (`/ torch.sqrt(...)`): unchanged. -/
def scalarDivShape (s : Shape) : Shape := s

/-! ## The two models

Only the hyperparameters are state; the learned weights play no role in the
shape-level claims. -/

structure BaseEmbeddingModel where
  vocab_size : Nat
  embedding_dim : Nat

/-- Shape semantics of `BaseEmbeddingModel.forward`:
embedding → dropout → mean over dim 1 → layer1 (E → 2E) → relu → dropout →
layer2 (2E → E) → relu → dropout → fc (E → vocab_size). -/
def BaseEmbeddingModel.forwardShape (m : BaseEmbeddingModel) (x : Shape) :
    Option Shape := do
  let embedded := dropoutShape (embeddingShape m.embedding_dim x)
  let pooled ← meanDimShape 1 embedded
  let h1 ← linearShape m.embedding_dim (m.embedding_dim * 2) pooled
  let h1 := dropoutShape (reluShape h1)
  let h2 ← linearShape (m.embedding_dim * 2) m.embedding_dim h1
  let h2 := dropoutShape (reluShape h2)
  linearShape m.embedding_dim m.vocab_size h2

/-- Shape semantics of `BaseEmbeddingModel.get_similarity`:
`F.cosine_similarity(embedded1.mean(1), embedded2.mean(1))`. -/
def BaseEmbeddingModel.getSimilarityShape (m : BaseEmbeddingModel)
    (x1 x2 : Shape) : Option Shape := do
  let e1 := embeddingShape m.embedding_dim x1
  let e2 := embeddingShape m.embedding_dim x2
  let p1 ← meanDimShape 1 e1
  let p2 ← meanDimShape 1 e2
  cosineSimilarityShape p1 p2

structure CrossAttentionModel where
  vocab_size : Nat
  embedding_dim : Nat
deriving DecidableEq

/-- `CrossAttentionModel.__init__` constructs
`nn.MultiheadAttention(embedding_dim, num_heads=4, ...)`, which asserts that
`embed_dim` is divisible by `num_heads`; construction fails otherwise. -/
def CrossAttentionModel.init (vocabSize embeddingDim : Nat) :
    Option CrossAttentionModel :=
  if embeddingDim % 4 = 0 then some ⟨vocabSize, embeddingDim⟩ else none

/-- Shape semantics of `CrossAttentionModel.forward`:
embedding → dropout → self-attention → residual add → layer norm → mean over
dim 1 → layer1 → relu → dropout → layer2 → relu → dropout → fc. -/
def CrossAttentionModel.forwardShape (m : CrossAttentionModel) (x : Shape) :
    Option Shape := do
  let embedded := dropoutShape (embeddingShape m.embedding_dim x)
  let attended ← mhaShape m.embedding_dim embedded embedded embedded
  let res ← addShape attended embedded
  let normed ← layerNormShape m.embedding_dim res
  let pooled ← meanDimShape 1 normed
  let h1 ← linearShape m.embedding_dim (m.embedding_dim * 2) pooled
  let h1 := dropoutShape (reluShape h1)
  let h2 ← linearShape (m.embedding_dim * 2) m.embedding_dim h1
  let h2 := dropoutShape (reluShape h2)
  linearShape m.embedding_dim m.vocab_size h2

/-- Shape semantics of `CrossAttentionModel.get_similarity`:
`attn_output, _ = attention(e1, e2, e2)` followed by
`torch.sum(attn_output * e1, dim=-1) / sqrt(embedding_dim)`. -/
def CrossAttentionModel.getSimilarityShape (m : CrossAttentionModel)
    (x1 x2 : Shape) : Option Shape := do
  let e1 := embeddingShape m.embedding_dim x1
  let e2 := embeddingShape m.embedding_dim x2
  let attn ← mhaShape m.embedding_dim e1 e2 e2
  let prod ← mulShape attn e1
  let summed ← sumLastDimShape prod
  pure (scalarDivShape summed)

/-! ## Synthetic data generation (`run_comparison`)

Each loop iteration of `run_comparison` consumes fresh randomness: a coin for
the pattern choice, then either ten tokens (pattern 1) or a base token and ten
noise values (pattern 2).  A `Draw` records the random values one iteration
consumes; the generator is an exact function of the draw.  Token values are
`Int` (PyTorch int64); `%` on `Int` agrees with Python `%` for a positive
modulus. -/

inductive Draw where
  | p1 (toks : List Int)
  | p2 (base : Int) (noise : List Int)

/-- One iteration of the generation loop in `run_comparison`.

Pattern 1: `seq = torch.randint(0, vocab_size//4, (10,))`,
`label = (seq[0] + seq[-1]) % vocab_size`.

Pattern 2: `base_token = torch.randint(0, vocab_size//4, (1,))`,
`noise = torch.randint(-2, 3, (10,))`, `seq = (base_token + noise) % vocab_size`,
`label = (base_token + 3) % vocab_size`.

`torch.randint(0, vocab_size//4, ...)` raises when the range is empty
(`vocab_size // 4 == 0`), modelled by the first guard.  The second guard
states that the draw lies in the sampler's range; a draw outside it cannot
occur, and the `none` it returns marks that impossibility. -/
def genExample (vocabSize : Nat) : Draw → Option (List Int × Int)
  | .p1 toks =>
    if vocabSize / 4 = 0 then none
    else if toks.length = 10 ∧ ∀ t ∈ toks, 0 ≤ t ∧ t < ((vocabSize / 4 : Nat) : Int) then
      some (toks, (toks.headD 0 + toks.getLastD 0) % (vocabSize : Int))
    else none
  | .p2 base noise =>
    if vocabSize / 4 = 0 then none
    else if (0 ≤ base ∧ base < ((vocabSize / 4 : Nat) : Int)) ∧
        noise.length = 10 ∧ ∀ n ∈ noise, -2 ≤ n ∧ n < 3 then
      some (noise.map (fun n => (base + n) % (vocabSize : Int)),
        (base + 3) % (vocabSize : Int))
    else none

/-- The generation loop of `run_comparison`: `dataset_size` iterations, each
appending one `(sequence, label)` pair; iteration `i` consumes draw `i`. -/
def genDataset (vocabSize : Nat) (datasetSize : Nat) (draws : Nat → Draw) :
    Option (List (List Int × Int)) :=
  match datasetSize with
  | 0 => some []
  | m + 1 =>
    match genDataset vocabSize m draws, genExample vocabSize (draws m) with
    | some ds, some ex => some (ds ++ [ex])
    | _, _ => none

/-! ## Train/test split and training harness -/

/-- The split point `train_size = int(0.8 * len(data))`.  Python multiplies
`len(data)` by the double closest to `0.8`, namely `0.8·(1 + 2⁻⁵⁴)`, and
truncates.  For every dataset size below `2⁴⁹` the rounded product lies in
`[⌊4n/5⌋, ⌊4n/5⌋ + 1)` (the relative error of at most `2⁻⁵⁴ + 2⁻⁵³` never
carries the value across an integer boundary), so the truncation equals
`⌊4n/5⌋`, embedded as `Nat` division. -/
def train_size (n : Nat) : Nat := 4 * n / 5

/-- The split `data[:train_size]`, `data[train_size:]` in `run_comparison`. -/
def splitData (data : List (List Int × Int)) (k : Nat) :
    List (List Int × Int) × List (List Int × Int) :=
  (data.take k, data.drop k)

/-- Per-epoch metric lists tracked during training
(`results['metrics']['train_loss']`, etc.). -/
structure Metrics where
  train_loss : List ℚ
  test_loss : List ℚ
  accuracy : List ℚ

/-- The per-model results structure: wall-clock `training_time` and the
per-epoch `metrics`. -/
structure TrainResults where
  training_time : ℚ
  metrics : Metrics

/-- The dictionary returned by `run_comparison`, with exactly the keys
`base_model` and `cross_attention`. -/
structure ComparisonResults where
  base_model : TrainResults
  cross_attention : TrainResults

inductive ModelKind where
  | base
  | crossAttention
deriving DecidableEq

/-- One invocation of `train_and_measure`: which model it trains and the
`epochs` argument it receives. -/
structure TrainCall where
  model : ModelKind
  epochs : Nat
deriving DecidableEq

/-- Modelled from the spec: `train_and_measure` is absent from the repository
source (the notebook only calls it); the spec says it "trains each model for a
fixed epoch count over the synthetic data, tracks per-epoch training loss,
test loss, and accuracy, records wall-clock duration, and returns a results
structure".  It is therefore kept abstract, as a parameter `trainer` mapping
the model being trained and the epoch count to a `TrainResults`.

This function embeds the tail of `run_comparison`: it calls the trainer first
on the base model and then on the cross-attention model, each with
`epochs=20`, and returns the trace of trainer invocations in call order
alongside the results dictionary. -/
def runComparisonTraining (trainer : ModelKind → Nat → TrainResults) :
    List TrainCall × ComparisonResults :=
  let base_results := trainer .base 20
  let cross_attn_results := trainer .crossAttention 20
  ([⟨.base, 20⟩, ⟨.crossAttention, 20⟩],
   ⟨base_results, cross_attn_results⟩)

/-- `print_results`: the sequence of numbers printed, in print order.  For
each model (base first, then cross-attention) it prints the training time and
the last element of each of the three per-epoch metric lists; Python's
`list[-1]` raises on an empty list, modelled by `getLast?`. -/
def print_results (results : ComparisonResults) : Option (List ℚ) := do
  let btl ← results.base_model.metrics.train_loss.getLast?
  let bsl ← results.base_model.metrics.test_loss.getLast?
  let bac ← results.base_model.metrics.accuracy.getLast?
  let ctl ← results.cross_attention.metrics.train_loss.getLast?
  let csl ← results.cross_attention.metrics.test_loss.getLast?
  let cac ← results.cross_attention.metrics.accuracy.getLast?
  pure [results.base_model.training_time, btl, bsl, bac,
        results.cross_attention.training_time, ctl, csl, cac]

/-! ## Claims -/

/-- C1, counterexample: `CrossAttentionModel.get_similarity` does not return a
single scalar per sequence pair.  On a batch of 2 pairs of length-10
sequences it returns a tensor of shape `[2, 10]` — one score per position of
`x1` — not shape `[2]`. -/
theorem claim_C1_counterexample :
    CrossAttentionModel.getSimilarityShape ⟨50, 32⟩ [2, 10] [2, 10] =
      some [2, 10] ∧ ([2, 10] : Shape) ≠ [2] := by
  decide

/-- C1, amended: `BaseEmbeddingModel.get_similarity` returns one scalar per
batch element (shape `[b]`), while `CrossAttentionModel.get_similarity`
returns a per-position vector of shape `[b, l1]` — one score per position of
its first argument, not a single scalar per pair. -/
theorem claim_C1_amended (v e b l1 l2 : Nat) :
    BaseEmbeddingModel.getSimilarityShape ⟨v, e⟩ [b, l1] [b, l2] = some [b] ∧
    CrossAttentionModel.getSimilarityShape ⟨v, e⟩ [b, l1] [b, l2] =
      some [b, l1] := by
  constructor <;>
    simp [BaseEmbeddingModel.getSimilarityShape,
      CrossAttentionModel.getSimilarityShape, embeddingShape, dropoutShape,
      meanDimShape, cosineSimilarityShape, mhaShape, mulShape,
      sumLastDimShape, scalarDivShape, Option.bind]

/-- C4: on a batch of token-ID sequences of shape `[b, l]`, the forward
computation of each model returns one logit vector per input sequence, of
length `vocab_size`: output shape `[b, vocab_size]`. -/
theorem claim_C4 (v e b l : Nat) :
    BaseEmbeddingModel.forwardShape ⟨v, e⟩ [b, l] = some [b, v] ∧
    CrossAttentionModel.forwardShape ⟨v, e⟩ [b, l] = some [b, v] := by
  constructor <;>
    simp [BaseEmbeddingModel.forwardShape, CrossAttentionModel.forwardShape,
      embeddingShape, dropoutShape, meanDimShape, linearShape, reluShape,
      mhaShape, addShape, layerNormShape, Option.bind]

/-- C5: `run_comparison` invokes the trainer first on the base model and then
on the cross-attention model, each with `epochs = 20`, and returns a
dictionary whose `base_model` and `cross_attention` entries hold the
respective results. -/
theorem claim_C5 (trainer : ModelKind → Nat → TrainResults) :
    (runComparisonTraining trainer).1 =
      [⟨ModelKind.base, 20⟩, ⟨ModelKind.crossAttention, 20⟩] ∧
    (runComparisonTraining trainer).2.base_model = trainer ModelKind.base 20 ∧
    (runComparisonTraining trainer).2.cross_attention =
      trainer ModelKind.crossAttention 20 :=
  ⟨rfl, rfl, rfl⟩

/-- C6: the train/test split partitions the dataset: the training set is
exactly the first `train_size` pairs (`train_size` elements long, since
`train_size n ≤ n`), the test set is the remaining pairs, and their
concatenation restores every generated example exactly once in order. -/
theorem claim_C6 (data : List (List Int × Int)) :
    (splitData data (train_size data.length)).1.length =
      train_size data.length ∧
    (splitData data (train_size data.length)).2.length =
      data.length - train_size data.length ∧
    (splitData data (train_size data.length)).1 ++
      (splitData data (train_size data.length)).2 = data := by
  refine ⟨?_, ?_, List.take_append_drop _ _⟩
  · simp only [splitData, List.length_take]
    have : train_size data.length ≤ data.length := by
      unfold train_size; omega
    omega
  · simp [splitData, List.length_drop]

/-- C9: data generation requires `vocab_size ≥ 4` — for `vocab_size < 4` the
sampling range of `torch.randint(0, vocab_size//4, ...)` is empty and every
generation attempt fails — and constructing `CrossAttentionModel` requires
`embedding_dim` divisible by the 4 attention heads. -/
theorem claim_C9 :
    (∀ (v : Nat) (d : Draw), v < 4 → genExample v d = none) ∧
    (∀ v e : Nat, e % 4 ≠ 0 → CrossAttentionModel.init v e = none) := by
  constructor
  · intro v d hv
    have h4 : v / 4 = 0 := Nat.div_eq_of_lt hv
    cases d <;> simp [genExample, h4]
  · intro v e he
    simp [CrossAttentionModel.init, he]

/-- C9, witness: `vocab_size = 3` makes generation fail on a concrete draw,
and `embedding_dim = 6` makes model construction fail. -/
theorem claim_C9_witness :
    ((3 : Nat) < 4 ∧ genExample 3 (.p1 (List.replicate 10 0)) = none) ∧
    ((6 : Nat) % 4 ≠ 0 ∧ CrossAttentionModel.init 50 6 = none) :=
  ⟨⟨by decide, claim_C9.1 3 (.p1 (List.replicate 10 0)) (by decide)⟩,
   ⟨by decide, claim_C9.2 50 6 (by decide)⟩⟩

/-- C2, counterexample: the label is not a deterministic function of the
sequence alone.  With `vocab_size = 50`, the pattern-2 draws `base = 3` with
all-zero noise and `base = 1` with all-2 noise both produce the sequence
`[3, 3, ..., 3]`, yet pair it with labels `6` and `4` respectively. -/
theorem claim_C2_counterexample :
    genExample 50 (.p2 3 (List.replicate 10 0)) =
      some (List.replicate 10 3, 6) ∧
    genExample 50 (.p2 1 (List.replicate 10 2)) =
      some (List.replicate 10 3, 4) ∧
    (6 : Int) ≠ 4 := by
  decide

/-- C2, amended: the label is a deterministic function of the generator's
random draw, and under pattern 1 it is a deterministic function of the
sequence alone (two pattern-1 draws producing the same sequence carry the
same label); under pattern 2 the label is derived from the base token, and
the same sequence can arise from different base tokens with different
labels. -/
theorem claim_C2_amended (v : Nat) (t1 t2 s : List Int) (l1 l2 : Int)
    (h1 : genExample v (.p1 t1) = some (s, l1))
    (h2 : genExample v (.p1 t2) = some (s, l2)) : l1 = l2 := by
  simp only [genExample] at h1 h2
  split_ifs at h1 h2
  rw [Option.some.injEq, Prod.mk.injEq] at h1 h2
  obtain ⟨rfl, rfl⟩ := h1
  obtain ⟨rfl, rfl⟩ := h2
  rfl

/-- C2, witness: the amended determinism theorem applied at a concrete
pattern-1 draw. -/
theorem claim_C2_witness :
    genExample 8 (.p1 (List.replicate 10 0)) =
      some (List.replicate 10 0, 0) ∧ (0 : Int) = 0 :=
  ⟨by decide,
   claim_C2_amended 8 (List.replicate 10 0) (List.replicate 10 0)
     (List.replicate 10 0) 0 0 (by decide) (by decide)⟩

/-- Every successfully generated example has a length-10 sequence whose
tokens lie in `[0, vocab_size)`. -/
theorem genExample_shape (v : Nat) (d : Draw) (s : List Int) (l : Int)
    (h : genExample v d = some (s, l)) :
    s.length = 10 ∧ ∀ t ∈ s, 0 ≤ t ∧ t < (v : Int) := by
  cases d with
  | p1 toks =>
    simp only [genExample] at h
    split_ifs at h with h0 hg
    rw [Option.some.injEq, Prod.mk.injEq] at h
    obtain ⟨rfl, -⟩ := h
    refine ⟨hg.1, fun t ht => ?_⟩
    obtain ⟨ht0, ht1⟩ := hg.2 t ht
    exact ⟨ht0, by omega⟩
  | p2 base noise =>
    simp only [genExample] at h
    split_ifs at h with h0 hg
    rw [Option.some.injEq, Prod.mk.injEq] at h
    obtain ⟨rfl, -⟩ := h
    refine ⟨by simp [hg.2.1], fun t ht => ?_⟩
    simp only [List.mem_map] at ht
    obtain ⟨n, -, rfl⟩ := ht
    exact ⟨Int.emod_nonneg _ (by omega), Int.emod_lt_of_pos _ (by omega)⟩

/-- C3: whenever the generation loop of `run_comparison` succeeds, the
dataset contains exactly `dataset_size` sequences, each of length exactly 10
with integer token IDs in `[0, vocab_size)`. -/
theorem claim_C3 (v n : Nat) (draws : Nat → Draw) (ds : List (List Int × Int))
    (h : genDataset v n draws = some ds) :
    ds.length = n ∧ ∀ p ∈ ds, p.1.length = 10 ∧ ∀ t ∈ p.1, 0 ≤ t ∧ t < (v : Int) := by
  induction n generalizing ds with
  | zero =>
    simp only [genDataset, Option.some.injEq] at h
    subst h
    simp
  | succ m ih =>
    simp only [genDataset] at h
    cases hds : genDataset v m draws with
    | none => rw [hds] at h; simp at h
    | some ds0 =>
      cases hex : genExample v (draws m) with
      | none => rw [hds, hex] at h; simp at h
      | some ex =>
        obtain ⟨es, el⟩ := ex
        rw [hds, hex, Option.some.injEq] at h
        subst h
        obtain ⟨ih1, ih2⟩ := ih ds0 hds
        have hx := genExample_shape v (draws m) es el hex
        refine ⟨by simp [ih1], fun p hp => ?_⟩
        rcases List.mem_append.mp hp with hp0 | hp1
        · exact ih2 p hp0
        · have hpe : p = (es, el) := by simpa using hp1
          subst hpe
          exact hx

/-- C3, witness: a concrete successful generation of a 2-element dataset with
`vocab_size = 8`. -/
theorem claim_C3_witness :
    genDataset 8 2 (fun _ => Draw.p1 (List.replicate 10 0)) =
      some [(List.replicate 10 0, 0), (List.replicate 10 0, 0)] ∧
    ([(List.replicate 10 0, (0 : Int)), (List.replicate 10 0, 0)].length = 2 ∧
      ∀ p ∈ [(List.replicate 10 0, (0 : Int)), (List.replicate 10 0, 0)],
        p.1.length = 10 ∧ ∀ t ∈ p.1, 0 ≤ t ∧ t < (8 : Int)) :=
  ⟨by decide,
   claim_C3 8 2 (fun _ => Draw.p1 (List.replicate 10 0))
     [(List.replicate 10 0, 0), (List.replicate 10 0, 0)] (by decide)⟩

/-- C7: whenever the per-epoch metric lists of both models are non-empty,
`print_results` prints, for each model, the training time followed by the
final (last) element of the train-loss, test-loss and accuracy lists. -/
theorem claim_C7 (r : ComparisonResults)
    (h1 : r.base_model.metrics.train_loss ≠ [])
    (h2 : r.base_model.metrics.test_loss ≠ [])
    (h3 : r.base_model.metrics.accuracy ≠ [])
    (h4 : r.cross_attention.metrics.train_loss ≠ [])
    (h5 : r.cross_attention.metrics.test_loss ≠ [])
    (h6 : r.cross_attention.metrics.accuracy ≠ []) :
    print_results r = some [r.base_model.training_time,
      r.base_model.metrics.train_loss.getLast h1,
      r.base_model.metrics.test_loss.getLast h2,
      r.base_model.metrics.accuracy.getLast h3,
      r.cross_attention.training_time,
      r.cross_attention.metrics.train_loss.getLast h4,
      r.cross_attention.metrics.test_loss.getLast h5,
      r.cross_attention.metrics.accuracy.getLast h6] := by
  simp [print_results, List.getLast?_eq_getLast _ h1,
    List.getLast?_eq_getLast _ h2, List.getLast?_eq_getLast _ h3,
    List.getLast?_eq_getLast _ h4, List.getLast?_eq_getLast _ h5,
    List.getLast?_eq_getLast _ h6, Option.bind]

/-- C7, witness: `print_results` on a concrete results structure with
singleton metric lists. -/
theorem claim_C7_witness :
    print_results ⟨⟨1, ⟨[2], [3], [4]⟩⟩, ⟨5, ⟨[6], [7], [8]⟩⟩⟩ =
      some [1, 2, 3, 4, 5, 6, 7, 8] := by
  simpa using claim_C7 ⟨⟨1, ⟨[2], [3], [4]⟩⟩, ⟨5, ⟨[6], [7], [8]⟩⟩⟩
    (by simp) (by simp) (by simp) (by simp) (by simp) (by simp)

/-- C8: every label produced by the generator lies in `[0, vocab_size)` (both
patterns reduce the label modulo `vocab_size`), hence is a valid class index
for the models' `vocab_size`-way output layer. -/
theorem claim_C8 (v : Nat) (d : Draw) (s : List Int) (l : Int)
    (h : genExample v d = some (s, l)) : 0 ≤ l ∧ l < (v : Int) := by
  cases d with
  | p1 toks =>
    simp only [genExample] at h
    split_ifs at h with h0 hg
    rw [Option.some.injEq, Prod.mk.injEq] at h
    obtain ⟨-, rfl⟩ := h
    exact ⟨Int.emod_nonneg _ (by omega), Int.emod_lt_of_pos _ (by omega)⟩
  | p2 base noise =>
    simp only [genExample] at h
    split_ifs at h with h0 hg
    rw [Option.some.injEq, Prod.mk.injEq] at h
    obtain ⟨-, rfl⟩ := h
    exact ⟨Int.emod_nonneg _ (by omega), Int.emod_lt_of_pos _ (by omega)⟩

/-- C8, witness: a concrete generated example with `vocab_size = 8` whose
label `0` lies in `[0, 8)`. -/
theorem claim_C8_witness :
    genExample 8 (.p1 (List.replicate 10 0)) =
      some (List.replicate 10 0, 0) ∧ (0 ≤ (0 : Int) ∧ (0 : Int) < 8) :=
  ⟨by decide,
   claim_C8 8 (.p1 (List.replicate 10 0)) (List.replicate 10 0) 0 (by decide)⟩

/-- C10: for every pattern-1 example, the modulo in the label computation is
a no-op: both the first and the last token are below `vocab_size / 4`, so
their sum is below `vocab_size` and the label equals `seq[0] + seq[-1]`
exactly. -/
theorem claim_C10 (v : Nat) (toks s : List Int) (l : Int)
    (h : genExample v (.p1 toks) = some (s, l)) :
    l = s.headD 0 + s.getLastD 0 := by
  simp only [genExample] at h
  split_ifs at h with h0 hg
  rw [Option.some.injEq, Prod.mk.injEq] at h
  obtain ⟨rfl, rfl⟩ := h
  obtain ⟨hlen, hb⟩ := hg
  have hne : toks ≠ [] := by
    intro hcon
    rw [hcon] at hlen
    simp at hlen
  have hhead : toks.headD 0 ∈ toks := by
    cases toks with
    | nil => exact absurd rfl hne
    | cons a as => simp
  have hlast : toks.getLastD 0 ∈ toks := by
    rw [List.getLastD_eq_getLast?, List.getLast?_eq_getLast _ hne]
    exact List.getLast_mem hne
  obtain ⟨hh0, hh1⟩ := hb _ hhead
  obtain ⟨hl0, hl1⟩ := hb _ hlast
  exact (Int.emod_eq_of_lt (by omega) (by omega))

/-- C10, witness: a concrete pattern-1 example with `vocab_size = 8`: label
`1 = seq[0] + seq[-1]` with no reduction. -/
theorem claim_C10_witness :
    genExample 8 (.p1 [1, 0, 0, 0, 0, 0, 0, 0, 0, 0]) =
      some ([1, 0, 0, 0, 0, 0, 0, 0, 0, 0], 1) ∧
    (1 : Int) = ([1, 0, 0, 0, 0, 0, 0, 0, 0, 0] : List Int).headD 0 +
      ([1, 0, 0, 0, 0, 0, 0, 0, 0, 0] : List Int).getLastD 0 :=
  ⟨by decide,
   claim_C10 8 [1, 0, 0, 0, 0, 0, 0, 0, 0, 0]
     [1, 0, 0, 0, 0, 0, 0, 0, 0, 0] 1 (by decide)⟩

end CosineSim
